import Mathlib

set_option allowUnsafeReducibility true in
attribute [semireducible] Rat.add Rat.sub Rat.mul Rat.inv Rat.neg Rat.div

/-!
Verification of the face-validator per-frame validation pipeline.

The development shallowly embeds the geometry predicates of `src/utils.ts`,
two landmark checks (`isNeutralExpression`, `hasDarkGlasses`) that live in the
fuller utils variant, and the frame classifier / detection-loop iteration of
`FaceValidator.startDetectionLoop`.  Numeric values are rationals; pixel
sampling (brightness of the face crop, brightness of the eye regions) is an
external capability and enters the embedding as data (`Option ℚ` inputs),
matching the spec's treatment of the sampler as a provided collaborator.
-/

namespace FaceValidator

/-- A normalized landmark point, `{x, y}` in `[0,1]` relative coordinates. -/
structure Landmark where
  x : ℚ
  y : ℚ
deriving DecidableEq, Repr

/-- A bounding box `{xMin, yMin, width, height}`, normalized 0-1. -/
structure BoundingBox where
  xMin : ℚ
  yMin : ℚ
  width : ℚ
  height : ℚ
deriving DecidableEq, Repr

/-- Face data `DetectedFaceData`: bounding box, landmark list and frame timestamp. -/
structure DetectedFaceData where
  boundingBox : BoundingBox
  landmarks : List Landmark
  timestamp : ℚ
deriving DecidableEq, Repr

/-- Hand data `DetectedHandData`: hand landmark list plus handedness label. -/
structure DetectedHandData where
  landmarks : List Landmark
  handedness : String
deriving DecidableEq, Repr

/-- The closed `ValidationStatus` enum. -/
inductive ValidationStatus where
  | INITIALIZING
  | NO_FACE_DETECTED
  | FACE_DETECTED
  | TOO_CLOSE
  | TOO_FAR
  | OFF_CENTER
  | FACE_OBSTRUCTED
  | HEAD_NOT_STRAIGHT
  | MULTIPLE_FACES
  | POOR_ILLUMINATION
  | NOT_NEUTRAL_EXPRESSION
  | DARK_GLASSES
  | STAY_STILL
  | CAPTURING
  | SUCCESS
  | ERROR
deriving DecidableEq, Repr

/-- Result type of `checkFaceDistance`. -/
inductive DistanceStatus where
  | OK
  | TOO_FAR
  | TOO_CLOSE
deriving DecidableEq, Repr

/-- Embeds `checkFaceDistance(boundingBox, minFaceSizeFactor, maxFaceSizeFactor)`:
the normalized bbox width below the minimum factor is TOO_FAR, above the
maximum factor is TOO_CLOSE, otherwise OK. -/
def checkFaceDistance (boundingBox : BoundingBox)
    (minFaceSizeFactor maxFaceSizeFactor : ℚ) : DistanceStatus :=
  let faceWidthR := boundingBox.width
  if faceWidthR < minFaceSizeFactor then .TOO_FAR
  else if faceWidthR > maxFaceSizeFactor then .TOO_CLOSE
  else .OK

/-- Horizontal oval radius factor of the framing guide. -/
def OVAL_RADIUS_X_FACTOR : ℚ := 28/100

/-- Vertical oval radius factor of the framing guide. -/
def OVAL_RADIUS_Y_FACTOR : ℚ := 48/100

/-- Embeds `isPointInsideOval(pointX, pointY, frameWidth, frameHeight)`: the
normalized point, converted to pixels, must satisfy the ellipse containment
`dx*dx + dy*dy <= 1` against the frame-centered oval. -/
def isPointInsideOval (pointX pointY frameWidth frameHeight : ℚ) : Bool :=
  let px := pointX * frameWidth
  let py := pointY * frameHeight
  let cx := frameWidth / 2
  let cy := frameHeight / 2
  let rx := frameWidth * OVAL_RADIUS_X_FACTOR
  let ry := frameHeight * OVAL_RADIUS_Y_FACTOR
  let dx := (px - cx) / rx
  let dy := (py - cy) / ry
  dx * dx + dy * dy ≤ 1

/-- Embeds `isFaceBoundingBoxInsideOval(boundingBox, frameWidth, frameHeight)`:
the bbox center must be within 80% of the oval, and at most one of the four
bbox corners may exceed the oval with a 10% tolerance (value > 1.1). -/
def isFaceBoundingBoxInsideOval (boundingBox : BoundingBox)
    (frameWidth frameHeight : ℚ) : Bool :=
  let cx := frameWidth / 2
  let cy := frameHeight / 2
  let rx := frameWidth * OVAL_RADIUS_X_FACTOR
  let ry := frameHeight * OVAL_RADIUS_Y_FACTOR
  let faceLeft := boundingBox.xMin * frameWidth
  let faceRight := (boundingBox.xMin + boundingBox.width) * frameWidth
  let faceTop := boundingBox.yMin * frameHeight
  let faceBottom := (boundingBox.yMin + boundingBox.height) * frameHeight
  let faceCenterX := (faceLeft + faceRight) / 2
  let faceCenterY := (faceTop + faceBottom) / 2
  let centerDx := (faceCenterX - cx) / rx
  let centerDy := (faceCenterY - cy) / ry
  if centerDx * centerDx + centerDy * centerDy > 8/10 then
    false
  else
    let corners : List (ℚ × ℚ) :=
      [(faceLeft, faceTop), (faceRight, faceTop),
       (faceLeft, faceBottom), (faceRight, faceBottom)]
    let cornersOutside := corners.countP (fun corner =>
      let dx := (corner.1 - cx) / rx
      let dy := (corner.2 - cy) / ry
      decide (dx * dx + dy * dy > 11/10))
    cornersOutside ≤ 1

/-- Default landmark used for out-of-range index access; the 478-length guard
in each consumer ensures every accessed index is present. -/
def defaultLandmark : Landmark := ⟨0, 0⟩

/-- Embeds `isHeadStraight(landmarks, maxTiltDegrees)`: roll/yaw angle checks plus
vertical ordering and proportion checks of forehead/eyes/nose/mouth/chin.
The source compares `Math.atan(r) * (180/π) > maxTiltDegrees`; since `atan`
is strictly increasing this is equivalent, for a tilt bound in `[0°, 90°)`,
to `r > tan(maxTiltDegrees * π/180)`, so the embedding takes the threshold
in tangent space (`maxTiltTan`). -/
def isHeadStraight (landmarks : List Landmark) (maxTiltTan : ℚ) : Bool :=
  if landmarks.length < 478 then false else
  let leftEye := landmarks.getD 33 defaultLandmark
  let rightEye := landmarks.getD 263 defaultLandmark
  let nose := landmarks.getD 4 defaultLandmark
  let upperLip := landmarks.getD 13 defaultLandmark
  let lowerLip := landmarks.getD 14 defaultLandmark
  let chin := landmarks.getD 152 defaultLandmark
  let forehead := landmarks.getD 10 defaultLandmark
  let eyeDeltaY := |leftEye.y - rightEye.y|
  let eyeDeltaX := |leftEye.x - rightEye.x|
  if eyeDeltaX < 1/100 then false else
  let rollR := eyeDeltaY / eyeDeltaX
  if rollR > maxTiltTan then false else
  let midEyesX := (leftEye.x + rightEye.x) / 2
  let noseOffsetX := nose.x - midEyesX
  let eyeDist := |leftEye.x - rightEye.x|
  if eyeDist < 1/100 then false else
  let yawR := |noseOffsetX| / eyeDist
  if yawR > maxTiltTan then false else
  let midEyesY := (leftEye.y + rightEye.y) / 2
  let mouthY := (upperLip.y + lowerLip.y) / 2
  if forehead.y ≥ midEyesY then false else
  if midEyesY ≥ nose.y then false else
  if nose.y ≥ mouthY then false else
  if mouthY ≥ chin.y then false else
  let faceHeight := chin.y - forehead.y
  if faceHeight < 12/100 then false else
  let foreheadToEyes := midEyesY - forehead.y
  let eyesToNose := nose.y - midEyesY
  let noseToMouth := mouthY - nose.y
  let mouthToChin := chin.y - mouthY
  let foreheadEyesR := foreheadToEyes / faceHeight
  let eyesNoseR := eyesToNose / faceHeight
  let noseMouthR := noseToMouth / faceHeight
  let mouthChinR := mouthToChin / faceHeight
  if foreheadEyesR < 12/100 then false else
  if eyesNoseR < 5/100 ∨ eyesNoseR > 22/100 then false else
  if noseMouthR < 4/100 ∨ noseMouthR > 20/100 then false else
  if mouthChinR < 8/100 then false else
  true

/-- MediaPipe outer-mouth landmark indices. -/
def MEDIAPIPE_MOUTH_OUTER : List Nat := [61, 291, 0, 17, 39, 269, 270, 409]

/-- Embeds `isFaceGeometryPlausible(landmarks, boundingBox)`: the mouth center must
lie below the nose by at least 10% of the bbox height, with at least 3% of
the bbox height of vertical mouth spread. -/
def isFaceGeometryPlausible (landmarks : List Landmark)
    (boundingBox : BoundingBox) : Bool :=
  if landmarks.length < 478 then false else
  let nose := landmarks.getD 4 defaultLandmark
  let mouthPoints := MEDIAPIPE_MOUTH_OUTER.map
    (fun idx => landmarks.getD idx defaultLandmark)
  let mouthYs := mouthPoints.map (·.y)
  let mouthCenterY := mouthYs.sum / (mouthPoints.length : ℚ)
  let mouthMinY := (mouthYs.min?).getD 0
  let mouthMaxY := (mouthYs.max?).getD 0
  let mouthVerticalSpread := mouthMaxY - mouthMinY
  let boxHeight := boundingBox.height
  if mouthCenterY ≤ nose.y then false else
  let noseToMouthDist := mouthCenterY - nose.y
  if noseToMouthDist < 10/100 * boxHeight then false else
  if mouthVerticalSpread < 3/100 * boxHeight then false else
  true

/-- Embeds `isFaceStable(currentFace, previousFace, movementThreshold, frameWidth,
frameHeight)`: both faces present, with pixel-space center deltas within the
movement threshold and pixel-space size deltas within twice the threshold. -/
def isFaceStable (currentFace previousFace : Option DetectedFaceData)
    (movementThreshold frameWidth frameHeight : ℚ) : Bool :=
  match currentFace, previousFace with
  | some c, some p =>
    let currentCenterX := (c.boundingBox.xMin + c.boundingBox.width / 2) * frameWidth
    let currentCenterY := (c.boundingBox.yMin + c.boundingBox.height / 2) * frameHeight
    let previousCenterX := (p.boundingBox.xMin + p.boundingBox.width / 2) * frameWidth
    let previousCenterY := (p.boundingBox.yMin + p.boundingBox.height / 2) * frameHeight
    let deltaX := |currentCenterX - previousCenterX|
    let deltaY := |currentCenterY - previousCenterY|
    let deltaWidth := |c.boundingBox.width - p.boundingBox.width| * frameWidth
    let deltaHeight := |c.boundingBox.height - p.boundingBox.height| * frameHeight
    decide (deltaX ≤ movementThreshold) &&
    decide (deltaY ≤ movementThreshold) &&
    decide (deltaWidth ≤ movementThreshold * 2) &&
    decide (deltaHeight ≤ movementThreshold * 2)
  | _, _ => false

/-- Embeds `isHandNearFace(handData, faceBoundingBox, maxDistance)`: some hand
landmark within `maxDistance` (normalized Euclidean) of the bbox center.
The source compares `Math.sqrt(dx*dx + dy*dy) < maxDistance`; over the reals
this holds iff `0 ≤ maxDistance` and `dx*dx + dy*dy < maxDistance²`, which is
the decidable form used here. -/
def isHandNearFace (handData : DetectedHandData)
    (faceBoundingBox : BoundingBox) (maxDistance : ℚ) : Bool :=
  let faceCenterX := faceBoundingBox.xMin + faceBoundingBox.width / 2
  let faceCenterY := faceBoundingBox.yMin + faceBoundingBox.height / 2
  handData.landmarks.any (fun landmark =>
    let dx := landmark.x - faceCenterX
    let dy := landmark.y - faceCenterY
    decide (0 ≤ maxDistance) &&
    decide (dx * dx + dy * dy < maxDistance * maxDistance))

/-- Embeds `isNeutralExpression(landmarks)`: eyes open (eyelid gap at least 0.01),
mouth closed (lip gap at most 0.025), and no smile (mouth corners at least
0.05 below the nose tip). -/
def isNeutralExpression (landmarks : List Landmark) : Bool :=
  if landmarks.length < 478 then false else
  let leftEyeTop := landmarks.getD 159 defaultLandmark
  let leftEyeBottom := landmarks.getD 144 defaultLandmark
  let rightEyeTop := landmarks.getD 386 defaultLandmark
  let rightEyeBottom := landmarks.getD 373 defaultLandmark
  let leftEyeOpenness := |leftEyeTop.y - leftEyeBottom.y|
  let rightEyeOpenness := |rightEyeTop.y - rightEyeBottom.y|
  if leftEyeOpenness < 1/100 ∨ rightEyeOpenness < 1/100 then false else
  let mouthTop := landmarks.getD 13 defaultLandmark
  let mouthBottom := landmarks.getD 14 defaultLandmark
  let mouthOpenness := |mouthTop.y - mouthBottom.y|
  if mouthOpenness > 25/1000 then false else
  let mouthLeftCorner := landmarks.getD 61 defaultLandmark
  let mouthRightCorner := landmarks.getD 291 defaultLandmark
  let nose := landmarks.getD 4 defaultLandmark
  let mouthCornersAvgY := (mouthLeftCorner.y + mouthRightCorner.y) / 2
  let noseMouthDistance := mouthCornersAvgY - nose.y
  if noseMouthDistance < 5/100 then false else
  true

/-- Embeds `hasDarkGlasses(video, landmarks)`: after the 478-landmark guard, crop
both eye regions and compare the average of the two regions' brightness to
35.  The pixel sampling is an external capability modelled by `eyeSample`:
`some (l, r)` is the sampled pair of eye-region brightness values, `none`
models an unavailable 2d context or a thrown sampling error, both of which
return `false` in the source. -/
def hasDarkGlasses (eyeSample : Option (ℚ × ℚ)) (landmarks : List Landmark) : Bool :=
  if landmarks.length < 478 then false else
  match eyeSample with
  | none => false
  | some s =>
    let avgEyeBrightness := (s.1 + s.2) / 2
    avgEyeBrightness < 35

/-- Embeds `estimateBoundingBox(landmarks)`: min/max over all landmark x and y. -/
def estimateBoundingBox (landmarks : List Landmark) : BoundingBox :=
  let xs := landmarks.map (·.x)
  let ys := landmarks.map (·.y)
  let xMin := (xs.min?).getD 0
  let xMax := (xs.max?).getD 0
  let yMin := (ys.min?).getD 0
  let yMax := (ys.max?).getD 0
  { xMin := xMin, yMin := yMin, width := xMax - xMin, height := yMax - yMin }

/-- Session configuration thresholds, resolved once at session start.
`maxTiltTan` carries `maxHeadTiltDegrees` in tangent space (see
`isHeadStraight`). -/
structure ValidatorConfig where
  videoWidth : ℚ
  videoHeight : ℚ
  minFaceSizeFactor : ℚ
  maxFaceSizeFactor : ℚ
  maxTiltTan : ℚ
  maxHandFaceDistance : ℚ
  minIlluminationThreshold : ℚ
  stabilizationTimeThreshold : ℚ
  stabilityMovementThreshold : ℚ
deriving DecidableEq, Repr

/-- The mutable per-session state touched by the detection loop. -/
structure ValidatorState where
  lastDetection : Option DetectedFaceData
  stableSince : Option ℚ
  isCapturing : Bool
deriving DecidableEq, Repr

/-- One frame's detector output plus the external pixel-sampling outcomes.
`faceBrightness` is `calculateAverageBrightness` of the face crop, `none`
when the temporary 2d context is unavailable; `eyeSample` feeds
`hasDarkGlasses`; `captureCtxOk`/`captureBlobOk` are the two fallible steps
of `captureImage` (canvas 2d context, `toBlob` result). -/
structure FrameInput where
  faceLandmarks : List (List Landmark)
  faceBlendshapesNonempty : Bool
  hands : List DetectedHandData
  now : ℚ
  faceBrightness : Option ℚ
  eyeSample : Option (ℚ × ℚ)
  captureCtxOk : Bool
  captureBlobOk : Bool
deriving DecidableEq, Repr

/-- Result of the per-frame classification block (`startDetectionLoop`,
lines 796-920): the computed status, the face data that will become
`lastDetection`, and the value of `stableSince` after the block. -/
structure ClassifyResult where
  status : ValidationStatus
  faceData : Option DetectedFaceData
  stableSince : Option ℚ
deriving DecidableEq, Repr

/-- The stability-timer update: `if (!this.stableSince) this.stableSince =
now` treats both `null` and a timestamp of `0` as unset (JS falsiness). -/
def stableSinceStart (stableSince : Option ℚ) (now : ℚ) : ℚ :=
  match stableSince with
  | none => now
  | some t => if t = 0 then now else t

/-- The per-frame classification of `startDetectionLoop`: face-count
dispatch, then the sequential checks (distance, centering, geometry
plausibility, head pose, hand proximity, expression neutrality, dark
glasses, illumination, stability), first failure deciding the status. -/
def classifyFrame (cfg : ValidatorConfig) (st : ValidatorState)
    (input : FrameInput) : ClassifyResult :=
  let frameWidth := cfg.videoWidth
  let frameHeight := cfg.videoHeight
  if input.faceLandmarks.length > 1 then
    let landmarks := input.faceLandmarks.getD 0 []
    let faceData :=
      if input.faceBlendshapesNonempty then
        some { boundingBox := estimateBoundingBox landmarks,
               landmarks := landmarks, timestamp := input.now }
      else none
    { status := .MULTIPLE_FACES, faceData := faceData, stableSince := none }
  else if input.faceLandmarks.length = 1 then
    let landmarks := input.faceLandmarks.getD 0 []
    let boundingBox := estimateBoundingBox landmarks
    let faceData : Option DetectedFaceData :=
      some { boundingBox := boundingBox, landmarks := landmarks,
             timestamp := input.now }
    let distanceStatus := checkFaceDistance boundingBox
      cfg.minFaceSizeFactor cfg.maxFaceSizeFactor
    if distanceStatus ≠ .OK then
      { status := if distanceStatus = .TOO_CLOSE then .TOO_CLOSE else .TOO_FAR,
        faceData := faceData, stableSince := none }
    else
      let nose := landmarks.getD 4 defaultLandmark
      let isNoseCentered := isPointInsideOval nose.x nose.y frameWidth frameHeight
      let isFaceInsideOval := isFaceBoundingBoxInsideOval boundingBox frameWidth frameHeight
      if !isNoseCentered || !isFaceInsideOval then
        { status := .OFF_CENTER, faceData := faceData, stableSince := none }
      else if !(isFaceGeometryPlausible landmarks boundingBox) then
        { status := .FACE_OBSTRUCTED, faceData := faceData, stableSince := none }
      else if !(isHeadStraight landmarks cfg.maxTiltTan) then
        { status := .HEAD_NOT_STRAIGHT, faceData := faceData, stableSince := none }
      else if input.hands.length > 0 &&
          isHandNearFace (input.hands.getD 0 ⟨[], "Unknown"⟩) boundingBox
            cfg.maxHandFaceDistance then
        { status := .FACE_OBSTRUCTED, faceData := faceData, stableSince := none }
      else if !(isNeutralExpression landmarks) then
        { status := .NOT_NEUTRAL_EXPRESSION, faceData := faceData, stableSince := none }
      else if hasDarkGlasses input.eyeSample landmarks then
        { status := .DARK_GLASSES, faceData := faceData, stableSince := none }
      else
        match input.faceBrightness with
        | some brightness =>
          if brightness < cfg.minIlluminationThreshold then
            { status := .POOR_ILLUMINATION, faceData := faceData, stableSince := none }
          else
            if isFaceStable faceData st.lastDetection
                cfg.stabilityMovementThreshold frameWidth frameHeight then
              let s := stableSinceStart st.stableSince input.now
              if input.now - s ≥ cfg.stabilizationTimeThreshold then
                { status := .CAPTURING, faceData := faceData, stableSince := some s }
              else
                { status := .STAY_STILL, faceData := faceData, stableSince := some s }
            else
              { status := .STAY_STILL, faceData := faceData, stableSince := none }
        | none =>
          { status := .FACE_DETECTED, faceData := faceData, stableSince := none }
  else
    { status := .NO_FACE_DETECTED, faceData := none, stableSince := none }

/-- Observable outcome of one `detect()` iteration: the session state after
the iteration, the statuses published through `setStatus` in order, whether
`onCaptureSuccess` fired, and whether `stop()` was called. -/
structure IterationResult where
  state : ValidatorState
  emitted : List ValidationStatus
  captured : Bool
  stopped : Bool
deriving DecidableEq, Repr

/-- One exception-free `detect()` iteration past the warm-up guard: classify
the frame, store `lastDetection`, publish the status, and on a CAPTURING
status with the `isCapturing` latch clear run `captureImage` (a failed 2d
context publishes ERROR inside `captureImage`; the loop then publishes
SUCCESS unconditionally and stops; the `toBlob` callback later fires
`onCaptureSuccess` or publishes ERROR). -/
def runIteration (cfg : ValidatorConfig) (st : ValidatorState)
    (input : FrameInput) : IterationResult :=
  let r := classifyFrame cfg st input
  let st1 : ValidatorState :=
    { lastDetection := r.faceData, stableSince := r.stableSince,
      isCapturing := st.isCapturing }
  if r.status = .CAPTURING && !st.isCapturing then
    let st2 : ValidatorState := { st1 with isCapturing := true }
    if input.captureCtxOk then
      { state := st2,
        emitted := [r.status, .SUCCESS] ++
          (if input.captureBlobOk then [] else [.ERROR]),
        captured := input.captureBlobOk,
        stopped := true }
    else
      { state := st2,
        emitted := [r.status, .ERROR, .SUCCESS],
        captured := false,
        stopped := true }
  else
    { state := st1, emitted := [r.status], captured := false, stopped := false }

/-- Landmark layout of a concrete face that satisfies every geometric check:
centered in the frame, bbox 0.30 x 0.40, plausible vertical proportions,
eyes open, mouth closed, no smile. -/
def facePoint (i : Nat) : Landmark :=
  if i = 10 then ⟨1/2, 3/10⟩
  else if i = 33 then ⟨2/5, 2/5⟩
  else if i = 263 then ⟨3/5, 2/5⟩
  else if i = 4 then ⟨1/2, 47/100⟩
  else if i = 13 then ⟨1/2, 53/100⟩
  else if i = 14 then ⟨1/2, 55/100⟩
  else if i = 152 then ⟨1/2, 7/10⟩
  else if i = 61 then ⟨9/20, 27/50⟩
  else if i = 291 then ⟨11/20, 27/50⟩
  else if i = 0 then ⟨1/2, 21/40⟩
  else if i = 17 then ⟨1/2, 113/200⟩
  else if i = 39 then ⟨23/50, 53/100⟩
  else if i = 269 then ⟨27/50, 53/100⟩
  else if i = 270 then ⟨11/20, 11/20⟩
  else if i = 409 then ⟨9/20, 11/20⟩
  else if i = 159 then ⟨2/5, 79/200⟩
  else if i = 144 then ⟨2/5, 41/100⟩
  else if i = 386 then ⟨3/5, 79/200⟩
  else if i = 373 then ⟨3/5, 41/100⟩
  else if i = 234 then ⟨7/20, 9/20⟩
  else if i = 454 then ⟨13/20, 9/20⟩
  else ⟨1/2, 1/2⟩

/-- A full 478-point landmark list for the concrete valid face. -/
def goodFace : List Landmark := (List.range 478).map facePoint

/-- Concrete session configuration: 512x384 frame, size factors 0.15/0.75,
45-degree tilt bound (tangent 1), hand distance 0.15, illumination 50,
stabilization 1000 ms within 5 px. -/
def testConfig : ValidatorConfig :=
  { videoWidth := 512, videoHeight := 384,
    minFaceSizeFactor := 3/20, maxFaceSizeFactor := 3/4,
    maxTiltTan := 1, maxHandFaceDistance := 3/20,
    minIlluminationThreshold := 50,
    stabilizationTimeThreshold := 1000,
    stabilityMovementThreshold := 5 }

/-- The previous-frame detection of the same valid face. -/
def prevFaceData : DetectedFaceData :=
  { boundingBox := estimateBoundingBox goodFace, landmarks := goodFace,
    timestamp := 900 }

/-- State of a session that has been stable since timestamp 1 and has not
captured yet. -/
def captureState : ValidatorState :=
  { lastDetection := some prevFaceData, stableSince := some 1,
    isCapturing := false }

/-- A frame at timestamp 2000 showing the valid face, well lit and with all
sampling and capture steps succeeding: the stability timer (1999 ms elapsed)
makes this the capture-trigger frame. -/
def captureInput : FrameInput :=
  { faceLandmarks := [goodFace], faceBlendshapesNonempty := true,
    hands := [], now := 2000, faceBrightness := some 120,
    eyeSample := some (100, 100), captureCtxOk := true,
    captureBlobOk := true }

/-- The capture-trigger frame with a failing capture canvas context. -/
def captureFailInput : FrameInput := { captureInput with captureCtxOk := false }

/-- A detected hand far away from the face center. -/
def farHand : DetectedHandData := ⟨[⟨9/10, 9/10⟩], "Right"⟩

/-- A detected hand with a landmark exactly at the face center. -/
def nearHand : DetectedHandData := ⟨[⟨1/2, 1/2⟩], "Left"⟩

/-- A fresh session state: nothing detected yet, timer unset, latch clear. -/
def freshState : ValidatorState :=
  { lastDetection := none, stableSince := none, isCapturing := false }

/-- The valid-face frame with two hands, the far one listed first and the
near one second. -/
def twoHandsInput : FrameInput := { captureInput with hands := [farHand, nearHand] }

/-- The valid-face frame with two hands, the near one listed first. -/
def nearFirstInput : FrameInput := { captureInput with hands := [nearHand, farHand] }

/-- A frame with no detected face. -/
def emptyInput : FrameInput :=
  { faceLandmarks := [], faceBlendshapesNonempty := false, hands := [],
    now := 5, faceBrightness := none, eyeSample := none,
    captureCtxOk := true, captureBlobOk := true }

/-- A two-point landmark set whose bbox width 0.05 is far below the minimum
size factor. -/
def tinyFace : List Landmark := [⟨2/5, 2/5⟩, ⟨9/20, 9/20⟩]

/-- A frame showing only the tiny (too distant) face. -/
def tooFarInput : FrameInput := { emptyInput with faceLandmarks := [tinyFace] }

set_option maxRecDepth 1000000

/-- C5: for thresholds with `min ≤ max`, `checkFaceDistance` returns TOO_FAR
exactly when the normalized bbox width is strictly below the minimum factor,
TOO_CLOSE exactly when strictly above the maximum factor, and OK at either
boundary. -/
theorem checkFaceDistance_boundaries (bb : BoundingBox) (minF maxF : ℚ)
    (h : minF ≤ maxF) :
    (checkFaceDistance bb minF maxF = .TOO_FAR ↔ bb.width < minF) ∧
    (checkFaceDistance bb minF maxF = .TOO_CLOSE ↔ maxF < bb.width) ∧
    (bb.width = minF → checkFaceDistance bb minF maxF = .OK) ∧
    (bb.width = maxF → checkFaceDistance bb minF maxF = .OK) := by
  have hFar : checkFaceDistance bb minF maxF = .TOO_FAR ↔ bb.width < minF := by
    simp only [checkFaceDistance]
    split_ifs with h1 h2 <;> simp_all
  have hClose : checkFaceDistance bb minF maxF = .TOO_CLOSE ↔ maxF < bb.width := by
    simp only [checkFaceDistance]
    split_ifs with h1 h2 <;> simp_all
    linarith
  refine ⟨hFar, hClose, fun he => ?_, fun he => ?_⟩
  · simp only [checkFaceDistance]
    split_ifs with h1 h2
    · rw [he] at h1; exact absurd h1 (lt_irrefl _)
    · rw [he] at h2; exact absurd h2 (not_lt.mpr h)
    · rfl
  · simp only [checkFaceDistance]
    split_ifs with h1 h2
    · rw [he] at h1; exact absurd h1 (not_lt.mpr h)
    · rw [he] at h2; exact absurd h2 (lt_irrefl _)
    · rfl

/-- Witness for C5 at concrete inputs: width at the minimum boundary is OK,
width below the minimum is TOO_FAR. -/
theorem checkFaceDistance_boundaries_witness :
    checkFaceDistance ⟨0, 0, 3/20, 1/5⟩ (3/20) (3/4) = .OK ∧
    checkFaceDistance ⟨0, 0, 1/10, 1/5⟩ (3/20) (3/4) = .TOO_FAR := by
  have hA := checkFaceDistance_boundaries ⟨0, 0, 3/20, 1/5⟩ (3/20) (3/4) (by norm_num)
  have hB := checkFaceDistance_boundaries ⟨0, 0, 1/10, 1/5⟩ (3/20) (3/4) (by norm_num)
  exact ⟨hA.2.2.1 rfl, hB.1.mpr (by norm_num)⟩

/-- C6: `isFaceStable` on two present faces holds iff both pixel-space
center deltas are within the movement threshold and both pixel-space size
deltas are within twice the movement threshold. -/
theorem isFaceStable_iff (c p : DetectedFaceData) (mt W H : ℚ) :
    isFaceStable (some c) (some p) mt W H = true ↔
      (|(c.boundingBox.xMin + c.boundingBox.width / 2) * W -
        (p.boundingBox.xMin + p.boundingBox.width / 2) * W| ≤ mt ∧
       |(c.boundingBox.yMin + c.boundingBox.height / 2) * H -
        (p.boundingBox.yMin + p.boundingBox.height / 2) * H| ≤ mt ∧
       |c.boundingBox.width - p.boundingBox.width| * W ≤ 2 * mt ∧
       |c.boundingBox.height - p.boundingBox.height| * H ≤ 2 * mt) := by
  simp [isFaceStable, and_assoc, mul_comm mt 2]

/-- Witness for C6: a face that moved one pixel horizontally against a
5-pixel threshold is stable. -/
theorem isFaceStable_iff_witness :
    isFaceStable (some ⟨⟨1/4, 1/4, 1/3, 2/5⟩, [], 10⟩)
      (some ⟨⟨26/100, 1/4, 1/3, 2/5⟩, [], 5⟩) 5 100 100 = true := by
  have h := isFaceStable_iff ⟨⟨1/4, 1/4, 1/3, 2/5⟩, [], 10⟩
    ⟨⟨26/100, 1/4, 1/3, 2/5⟩, [], 5⟩ 5 100 100
  exact h.mpr (by norm_num)

/-- C8 (amended): on a landmark list shorter than 478 points the three
landmark checks `isHeadStraight`, `isFaceGeometryPlausible` and
`isNeutralExpression` fail closed (return the blocking value `false`),
while `hasDarkGlasses` fails open (returns the non-blocking value `false`);
none of them faults. -/
theorem shortLandmarks_guards (lms : List Landmark) (bb : BoundingBox)
    (tilt : ℚ) (eyeSample : Option (ℚ × ℚ)) (h : lms.length < 478) :
    isHeadStraight lms tilt = false ∧
    isFaceGeometryPlausible lms bb = false ∧
    isNeutralExpression lms = false ∧
    hasDarkGlasses eyeSample lms = false := by
  unfold isHeadStraight isFaceGeometryPlausible isNeutralExpression hasDarkGlasses
  simp [h]

/-- Witness for C8 on the empty landmark list. -/
theorem shortLandmarks_guards_witness :
    isHeadStraight [] 1 = false ∧
    isFaceGeometryPlausible [] ⟨0, 0, 0, 0⟩ = false ∧
    isNeutralExpression [] = false ∧
    hasDarkGlasses none [] = false :=
  shortLandmarks_guards [] ⟨0, 0, 0, 0⟩ 1 none (by decide)

/-- Counterexample for C8 as stated: the blocking outcome of the
dark-glasses check is `true` (it is the value that yields DARK_GLASSES),
but on a short landmark list `hasDarkGlasses` returns `false` even when the
sampled eye regions are pitch dark — whereas the same pitch-dark sample on
a full landmark list does block. -/
theorem hasDarkGlasses_shortList_fails_open :
    hasDarkGlasses (some (0, 0)) [] = false ∧
    hasDarkGlasses none [] = false ∧
    hasDarkGlasses (some (0, 0)) goodFace = true := by decide

/-- Helper: scaling a coordinate into pixels and normalizing by a radius
proportional to the same frame dimension cancels the dimension. -/
theorem oval_term_cancel (x c w : ℚ) (hw : w ≠ 0) :
    (x * w - w / 2) / (w * c) = (x - 1/2) / c := by
  rw [← div_div]
  congr 1
  field_simp
  ring

/-- C9: `isPointInsideOval` does not depend on the frame dimensions (for
strictly positive dimensions), and equals the dimension-free ellipse test
against radii 0.28 and 0.48 about (0.5, 0.5). -/
theorem isPointInsideOval_frame_independent (x y W H Wp Hp : ℚ)
    (hW : 0 < W) (hH : 0 < H) (hWp : 0 < Wp) (hHp : 0 < Hp) :
    isPointInsideOval x y W H = isPointInsideOval x y Wp Hp ∧
    (isPointInsideOval x y W H = true ↔
      ((x - 1/2) / (28/100)) * ((x - 1/2) / (28/100)) +
      ((y - 1/2) / (48/100)) * ((y - 1/2) / (48/100)) ≤ 1) := by
  have key : ∀ w h : ℚ, w ≠ 0 → h ≠ 0 →
      (isPointInsideOval x y w h = true ↔
        ((x - 1/2) / (28/100)) * ((x - 1/2) / (28/100)) +
        ((y - 1/2) / (48/100)) * ((y - 1/2) / (48/100)) ≤ 1) := by
    intro w h hw hh
    simp only [isPointInsideOval, OVAL_RADIUS_X_FACTOR, OVAL_RADIUS_Y_FACTOR,
      decide_eq_true_eq]
    rw [oval_term_cancel x _ w hw, oval_term_cancel y _ h hh]
  refine ⟨Bool.eq_iff_iff.mpr ?_, key W H hW.ne' hH.ne'⟩
  show isPointInsideOval x y W H = true ↔ isPointInsideOval x y Wp Hp = true
  rw [key W H hW.ne' hH.ne', key Wp Hp hWp.ne' hHp.ne']

/-- Witness for C9: the same point gives the same verdict on a 512x384 and
a 100x200 frame. -/
theorem isPointInsideOval_frame_independent_witness :
    isPointInsideOval (1/2) (47/100) 512 384 =
      isPointInsideOval (1/2) (47/100) 100 200 :=
  (isPointInsideOval_frame_independent (1/2) (47/100) 512 384 100 200
    (by norm_num) (by norm_num) (by norm_num) (by norm_num)).1

/-- C10: `isFaceBoundingBoxInsideOval` accepts exactly when the face
center's ellipse value (radii 0.28 x frame width and 0.48 x frame height
about the frame center) is at most 0.8 and at most one of the four bbox
corners has ellipse value strictly greater than 1.1. -/
theorem isFaceBoundingBoxInsideOval_policy (bb : BoundingBox) (W H : ℚ)
    (hW : 0 < W) (hH : 0 < H) :
    isFaceBoundingBoxInsideOval bb W H = true ↔
      ((((bb.xMin + bb.width / 2) * W - W/2) / (W * (28/100))) *
         (((bb.xMin + bb.width / 2) * W - W/2) / (W * (28/100))) +
       (((bb.yMin + bb.height / 2) * H - H/2) / (H * (48/100))) *
         (((bb.yMin + bb.height / 2) * H - H/2) / (H * (48/100))) ≤ 8/10 ∧
       ([(bb.xMin * W, bb.yMin * H),
         ((bb.xMin + bb.width) * W, bb.yMin * H),
         (bb.xMin * W, (bb.yMin + bb.height) * H),
         ((bb.xMin + bb.width) * W, (bb.yMin + bb.height) * H)].countP
          (fun c =>
            decide (((c.1 - W/2) / (W * (28/100))) * ((c.1 - W/2) / (W * (28/100))) +
              ((c.2 - H/2) / (H * (48/100))) * ((c.2 - H/2) / (H * (48/100))) > 11/10))) ≤ 1) := by
  have hcx : (bb.xMin * W + (bb.xMin + bb.width) * W) / 2 =
      (bb.xMin + bb.width / 2) * W := by ring
  have hcy : (bb.yMin * H + (bb.yMin + bb.height) * H) / 2 =
      (bb.yMin + bb.height / 2) * H := by ring
  simp only [isFaceBoundingBoxInsideOval, OVAL_RADIUS_X_FACTOR,
    OVAL_RADIUS_Y_FACTOR]
  rw [hcx, hcy]
  split_ifs with hcen
  · simp only [Bool.false_eq_true, false_iff, not_and]
    intro h1
    exact absurd hcen (not_lt.mpr h1)
  · simp [not_lt.mp hcen]

/-- Witness for C10: the concrete valid-face bbox is accepted on a 512x384
frame. -/
theorem isFaceBoundingBoxInsideOval_policy_witness :
    isFaceBoundingBoxInsideOval ⟨7/20, 3/10, 3/10, 2/5⟩ 512 384 = true :=
  (isFaceBoundingBoxInsideOval_policy ⟨7/20, 3/10, 3/10, 2/5⟩ 512 384
    (by norm_num) (by norm_num)).mpr (by norm_num)

/-- Every branch of the per-frame classification either reports STAY_STILL
or CAPTURING, or clears the stability timestamp. -/
theorem classifyFrame_cases (cfg : ValidatorConfig) (st : ValidatorState)
    (input : FrameInput) :
    (classifyFrame cfg st input).status = .STAY_STILL ∨
    (classifyFrame cfg st input).status = .CAPTURING ∨
    (classifyFrame cfg st input).stableSince = none := by
  by_cases hm : input.faceLandmarks.length > 1
  case pos =>
    right; right
    simp only [classifyFrame]
    rw [if_pos hm]
  by_cases h1 : input.faceLandmarks.length = 1
  case neg =>
    right; right
    simp only [classifyFrame]
    rw [if_neg hm, if_neg h1]
  by_cases hd : checkFaceDistance
      (estimateBoundingBox (input.faceLandmarks.getD 0 []))
      cfg.minFaceSizeFactor cfg.maxFaceSizeFactor = DistanceStatus.OK
  case neg =>
    right; right
    simp only [classifyFrame]
    rw [if_neg hm, if_pos h1, if_pos (by simp_all)]
  by_cases hcen : (!isPointInsideOval
      ((input.faceLandmarks.getD 0 []).getD 4 defaultLandmark).x
      ((input.faceLandmarks.getD 0 []).getD 4 defaultLandmark).y
      cfg.videoWidth cfg.videoHeight ||
    !isFaceBoundingBoxInsideOval
      (estimateBoundingBox (input.faceLandmarks.getD 0 []))
      cfg.videoWidth cfg.videoHeight) = true
  case pos =>
    right; right
    simp only [classifyFrame]
    rw [if_neg hm, if_pos h1, if_neg (by simp_all), if_pos (by simp_all)]
  by_cases hg : isFaceGeometryPlausible (input.faceLandmarks.getD 0 [])
      (estimateBoundingBox (input.faceLandmarks.getD 0 [])) = true
  case neg =>
    right; right
    simp only [classifyFrame]
    rw [if_neg hm, if_pos h1, if_neg (by simp_all), if_neg (by simp_all),
      if_pos (by simp_all)]
  by_cases hh : isHeadStraight (input.faceLandmarks.getD 0 [])
      cfg.maxTiltTan = true
  case neg =>
    right; right
    simp only [classifyFrame]
    rw [if_neg hm, if_pos h1, if_neg (by simp_all), if_neg (by simp_all),
      if_neg (by simp_all), if_pos (by simp_all)]
  by_cases hhd : (input.hands.length > 0 &&
      isHandNearFace (input.hands.getD 0 ⟨[], "Unknown"⟩)
        (estimateBoundingBox (input.faceLandmarks.getD 0 []))
        cfg.maxHandFaceDistance) = true
  case pos =>
    right; right
    simp only [classifyFrame]
    rw [if_neg hm, if_pos h1, if_neg (by simp_all), if_neg (by simp_all),
      if_neg (by simp_all), if_neg (by simp_all), if_pos (by
        simp only [Bool.and_eq_true, decide_eq_true_eq] at hhd
        obtain ⟨hl, hn2⟩ := hhd
        simp_all)]
  by_cases hn : isNeutralExpression (input.faceLandmarks.getD 0 []) = true
  case neg =>
    right; right
    simp only [classifyFrame]
    rw [if_neg hm, if_pos h1, if_neg (by simp_all), if_neg (by simp_all),
      if_neg (by simp_all), if_neg (by simp_all), if_neg (by simp_all),
      if_pos (by simp_all)]
  by_cases hdg : hasDarkGlasses input.eyeSample
      (input.faceLandmarks.getD 0 []) = true
  case pos =>
    right; right
    simp only [classifyFrame]
    rw [if_neg hm, if_pos h1, if_neg (by simp_all), if_neg (by simp_all),
      if_neg (by simp_all), if_neg (by simp_all), if_neg (by simp_all),
      if_neg (by simp_all), if_pos (by simp_all)]
  rcases hfb : input.faceBrightness with _ | b
  case' neg.none =>
    right; right
    simp only [classifyFrame, hfb]
    rw [if_neg hm, if_pos h1, if_neg (by simp_all), if_neg (by simp_all),
      if_neg (by simp_all), if_neg (by simp_all), if_neg (by simp_all),
      if_neg (by simp_all), if_neg (by simp_all)]
  by_cases hbr : b < cfg.minIlluminationThreshold
  case pos =>
    right; right
    simp only [classifyFrame, hfb]
    rw [if_neg hm, if_pos h1, if_neg (by simp_all), if_neg (by simp_all),
      if_neg (by simp_all), if_neg (by simp_all), if_neg (by simp_all),
      if_neg (by simp_all), if_neg (by simp_all), if_pos hbr]
  simp only [classifyFrame, hfb]
  rw [if_neg hm, if_pos h1, if_neg (by simp_all), if_neg (by simp_all),
    if_neg (by simp_all), if_neg (by simp_all), if_neg (by simp_all),
    if_neg (by simp_all), if_neg (by simp_all), if_neg hbr]
  split_ifs <;> simp

/-- C3 (amended): the per-frame classification yields a cleared stability
timestamp for every status other than STAY_STILL and CAPTURING; the
post-capture SUCCESS and ERROR emissions are not classification results and
leave the timestamp untouched. -/
theorem classifyFrame_reset_stableSince (cfg : ValidatorConfig)
    (st : ValidatorState) (input : FrameInput)
    (h1 : (classifyFrame cfg st input).status ≠ .STAY_STILL)
    (h2 : (classifyFrame cfg st input).status ≠ .CAPTURING) :
    (classifyFrame cfg st input).stableSince = none := by
  rcases classifyFrame_cases cfg st input with h | h | h
  · exact absurd h h1
  · exact absurd h h2
  · exact h

/-- Witness for C3 at the no-face frame. -/
theorem classifyFrame_reset_stableSince_witness :
    (classifyFrame testConfig freshState emptyInput).stableSince = none :=
  classifyFrame_reset_stableSince testConfig freshState emptyInput
    (by decide) (by decide)

/-- The x-coordinates of the valid test face span [0.35, 0.65] and its
y-coordinates span [0.30, 0.70], so its estimated bounding box is exactly
(0.35, 0.30, 0.30, 0.40). -/
theorem goodFace_bbox :
    estimateBoundingBox goodFace = ⟨7/20, 3/10, 3/10, 2/5⟩ := by
  have hA : Std.Antisymm (fun x1 x2 : ℚ => x1 ≤ x2) :=
    ⟨fun h1 h2 => le_antisymm h1 h2⟩
  have hxmin : (goodFace.map (fun l => l.x)).min? = some (7/20) := by
    rw [List.min?_eq_some_iff (fun a => le_refl a) (fun a b => min_choice a b)
      (fun a b c => le_min_iff)]
    exact ⟨by decide, by decide⟩
  have hxmax : (goodFace.map (fun l => l.x)).max? = some (13/20) := by
    rw [List.max?_eq_some_iff (fun a => le_refl a) (fun a b => max_choice a b)
      (fun a b c => max_le_iff)]
    exact ⟨by decide, by decide⟩
  have hymin : (goodFace.map (fun l => l.y)).min? = some (3/10) := by
    rw [List.min?_eq_some_iff (fun a => le_refl a) (fun a b => min_choice a b)
      (fun a b c => le_min_iff)]
    exact ⟨by decide, by decide⟩
  have hymax : (goodFace.map (fun l => l.y)).max? = some (7/10) := by
    rw [List.max?_eq_some_iff (fun a => le_refl a) (fun a b => max_choice a b)
      (fun a b c => max_le_iff)]
    exact ⟨by decide, by decide⟩
  simp only [estimateBoundingBox, hxmin, hxmax, hymin, hymax,
    Option.getD_some]
  norm_num

/-- Evaluation of the classifier on the capture-trigger frame: stability has
lasted 1999 ms, so the frame is classified CAPTURING and the stability
timestamp is retained. -/
theorem classify_captureInput :
    (classifyFrame testConfig captureState captureInput).status =
      .CAPTURING ∧
    (classifyFrame testConfig captureState captureInput).stableSince =
      some 1 := by
  have hl : captureInput.faceLandmarks.getD 0 [] = goodFace := rfl
  simp only [classifyFrame, captureState, prevFaceData, hl, goodFace_bbox]
  exact ⟨by decide, by decide⟩

/-- Evaluation of the classifier on the capture-trigger frame whose capture
canvas context fails; the classification itself is unchanged. -/
theorem classify_captureFailInput :
    (classifyFrame testConfig captureState captureFailInput).status =
      .CAPTURING ∧
    (classifyFrame testConfig captureState captureFailInput).stableSince =
      some 1 := by
  have hl : captureFailInput.faceLandmarks.getD 0 [] = goodFace := rfl
  simp only [classifyFrame, captureState, prevFaceData, hl, goodFace_bbox]
  exact ⟨by decide, by decide⟩

/-- Evaluation of the classifier on the valid-face frame with the far hand
listed first and the near hand second: the frame is classified STAY_STILL
(the near second hand is not consulted). -/
theorem classify_twoHandsInput :
    (classifyFrame testConfig freshState twoHandsInput).status =
      .STAY_STILL := by
  have hl : twoHandsInput.faceLandmarks.getD 0 [] = goodFace := rfl
  simp only [classifyFrame, freshState, hl, goodFace_bbox]
  decide

/-- Symbolic evaluation of one iteration on a capture-trigger frame with a
working capture path: CAPTURING then SUCCESS are published, the latch is
set, the image is delivered and the loop stops. -/
theorem runIteration_capture_eval (cfg : ValidatorConfig)
    (st : ValidatorState) (input : FrameInput)
    (h1 : (classifyFrame cfg st input).status = .CAPTURING)
    (h2 : st.isCapturing = false)
    (hctx : input.captureCtxOk = true)
    (hblob : input.captureBlobOk = true) :
    (runIteration cfg st input).emitted = [.CAPTURING, .SUCCESS] ∧
    (runIteration cfg st input).state.stableSince =
      (classifyFrame cfg st input).stableSince ∧
    (runIteration cfg st input).state.isCapturing = true ∧
    (runIteration cfg st input).captured = true ∧
    (runIteration cfg st input).stopped = true := by
  simp [runIteration, h1, h2, hctx, hblob]

/-- Symbolic evaluation of one iteration on a capture-trigger frame whose
capture canvas context is unavailable: CAPTURING, ERROR and SUCCESS are all
published, no image is delivered, the latch stays set and the loop stops. -/
theorem runIteration_captureFail_eval (cfg : ValidatorConfig)
    (st : ValidatorState) (input : FrameInput)
    (h1 : (classifyFrame cfg st input).status = .CAPTURING)
    (h2 : st.isCapturing = false)
    (hctx : input.captureCtxOk = false) :
    (runIteration cfg st input).emitted = [.CAPTURING, .ERROR, .SUCCESS] ∧
    (runIteration cfg st input).state.isCapturing = true ∧
    (runIteration cfg st input).captured = false ∧
    (runIteration cfg st input).stopped = true := by
  simp [runIteration, h1, h2, hctx]

/-- Counterexample for C3 as stated: on the capture-trigger frame the last
published status is SUCCESS, yet the resulting state keeps the stability
timestamp. -/
theorem success_frame_keeps_stableSince :
    (runIteration testConfig captureState captureInput).emitted.getLast? =
      some .SUCCESS ∧
    (runIteration testConfig captureState captureInput).state.stableSince =
      some 1 := by
  obtain ⟨hst, hss⟩ := classify_captureInput
  obtain ⟨he, hs2, _, _, _⟩ :=
    runIteration_capture_eval testConfig captureState captureInput hst
      rfl rfl rfl
  rw [he, hs2, hss]
  exact ⟨rfl, rfl⟩

/-- C2 (amended): every classified frame publishes at least one status; a
frame that does not fire the capture trigger publishes exactly the
classification status; the capture-trigger frame publishes CAPTURING first
and SUCCESS after it. -/
theorem runIteration_emits_statuses (cfg : ValidatorConfig)
    (st : ValidatorState) (input : FrameInput) :
    (runIteration cfg st input).emitted ≠ [] ∧
    (¬((classifyFrame cfg st input).status = .CAPTURING ∧
        st.isCapturing = false) →
      (runIteration cfg st input).emitted =
        [(classifyFrame cfg st input).status]) ∧
    ((classifyFrame cfg st input).status = .CAPTURING ∧
        st.isCapturing = false →
      (runIteration cfg st input).emitted.head? = some .CAPTURING ∧
      .SUCCESS ∈ (runIteration cfg st input).emitted) := by
  by_cases hP : (classifyFrame cfg st input).status = .CAPTURING ∧
      st.isCapturing = false
  · obtain ⟨h1, h2⟩ := hP
    have hC : ((classifyFrame cfg st input).status = ValidationStatus.CAPTURING
        && !st.isCapturing) = true := by simp [h1, h2]
    refine ⟨?_, fun hx => absurd ⟨h1, h2⟩ hx, fun _ => ?_⟩
    · by_cases hctx : input.captureCtxOk <;> simp [runIteration, hC, hctx, h1, h2]
    · by_cases hctx : input.captureCtxOk <;>
        by_cases hbl : input.captureBlobOk <;>
        simp [runIteration, hC, hctx, hbl, h1, h2]
  · have hC : ((classifyFrame cfg st input).status = ValidationStatus.CAPTURING
        && !st.isCapturing) = false := by
      rcases hc : st.isCapturing
      · have hs : (classifyFrame cfg st input).status ≠ .CAPTURING :=
          fun hs => hP ⟨hs, hc⟩
        simp [hs]
      · simp [hc]
    refine ⟨?_, fun _ => ?_, fun hx => absurd hx hP⟩
    · simp [runIteration, hC]
    · simp [runIteration, hC]

/-- Witness for C2 at the no-face frame: exactly one status is published. -/
theorem runIteration_emits_statuses_witness :
    (runIteration testConfig freshState emptyInput).emitted =
      [.NO_FACE_DETECTED] :=
  (runIteration_emits_statuses testConfig freshState emptyInput).2.1
    (by decide)

/-- Counterexample for C2 as stated: the capture-trigger frame publishes two
statuses (CAPTURING and then SUCCESS), not exactly one. -/
theorem capture_frame_two_statuses :
    (runIteration testConfig captureState captureInput).emitted =
      [.CAPTURING, .SUCCESS] ∧
    (runIteration testConfig captureState captureInput).emitted.length ≠ 1 := by
  obtain ⟨hst, _⟩ := classify_captureInput
  obtain ⟨he, _, _, _, _⟩ :=
    runIteration_capture_eval testConfig captureState captureInput hst
      rfl rfl rfl
  rw [he]
  exact ⟨rfl, by decide⟩

/-- C4: on the capture-trigger frame with a failing capture context the code
publishes ERROR and then still publishes SUCCESS, stops the loop, and never
releases the `isCapturing` latch. -/
theorem captureFailure_emits_success_and_keeps_latch :
    (runIteration testConfig captureState captureFailInput).emitted =
      [.CAPTURING, .ERROR, .SUCCESS] ∧
    (runIteration testConfig captureState captureFailInput).captured = false ∧
    (runIteration testConfig captureState captureFailInput).state.isCapturing
      = true ∧
    (runIteration testConfig captureState captureFailInput).stopped = true := by
  obtain ⟨hst, _⟩ := classify_captureFailInput
  obtain ⟨he, hic, hcap, hstop⟩ :=
    runIteration_captureFail_eval testConfig captureState captureFailInput
      hst rfl rfl
  exact ⟨he, hcap, hic, hstop⟩

/-- C1: the classifier dispatches on face count first (zero faces give
NO_FACE_DETECTED, several give MULTIPLE_FACES), then evaluates the checks in
the fixed order distance, centering, geometry plausibility, head pose, hand
proximity, expression neutrality, dark glasses, illumination, stability,
and the status is the one associated with the first failing check; checks
after the first failure do not affect the status. -/
theorem classifyFrame_precedence (cfg : ValidatorConfig)
    (st : ValidatorState) (input : FrameInput) :
    (input.faceLandmarks.length = 0 →
      (classifyFrame cfg st input).status = .NO_FACE_DETECTED) ∧
    (input.faceLandmarks.length > 1 →
      (classifyFrame cfg st input).status = .MULTIPLE_FACES) ∧
    (input.faceLandmarks.length = 1 →
      (checkFaceDistance (estimateBoundingBox (input.faceLandmarks.getD 0 []))
          cfg.minFaceSizeFactor cfg.maxFaceSizeFactor = .TOO_FAR →
        (classifyFrame cfg st input).status = .TOO_FAR) ∧
      (checkFaceDistance (estimateBoundingBox (input.faceLandmarks.getD 0 []))
          cfg.minFaceSizeFactor cfg.maxFaceSizeFactor = .TOO_CLOSE →
        (classifyFrame cfg st input).status = .TOO_CLOSE) ∧
      (checkFaceDistance (estimateBoundingBox (input.faceLandmarks.getD 0 []))
          cfg.minFaceSizeFactor cfg.maxFaceSizeFactor = .OK →
        ((!isPointInsideOval
              ((input.faceLandmarks.getD 0 []).getD 4 defaultLandmark).x
              ((input.faceLandmarks.getD 0 []).getD 4 defaultLandmark).y
              cfg.videoWidth cfg.videoHeight ||
          !isFaceBoundingBoxInsideOval
              (estimateBoundingBox (input.faceLandmarks.getD 0 []))
              cfg.videoWidth cfg.videoHeight) = true →
          (classifyFrame cfg st input).status = .OFF_CENTER) ∧
        ((!isPointInsideOval
              ((input.faceLandmarks.getD 0 []).getD 4 defaultLandmark).x
              ((input.faceLandmarks.getD 0 []).getD 4 defaultLandmark).y
              cfg.videoWidth cfg.videoHeight ||
          !isFaceBoundingBoxInsideOval
              (estimateBoundingBox (input.faceLandmarks.getD 0 []))
              cfg.videoWidth cfg.videoHeight) = false →
          (isFaceGeometryPlausible (input.faceLandmarks.getD 0 [])
              (estimateBoundingBox (input.faceLandmarks.getD 0 [])) = false →
            (classifyFrame cfg st input).status = .FACE_OBSTRUCTED) ∧
          (isFaceGeometryPlausible (input.faceLandmarks.getD 0 [])
              (estimateBoundingBox (input.faceLandmarks.getD 0 [])) = true →
            (isHeadStraight (input.faceLandmarks.getD 0 []) cfg.maxTiltTan
                = false →
              (classifyFrame cfg st input).status = .HEAD_NOT_STRAIGHT) ∧
            (isHeadStraight (input.faceLandmarks.getD 0 []) cfg.maxTiltTan
                = true →
              ((input.hands.length > 0 &&
                isHandNearFace (input.hands.getD 0 ⟨[], "Unknown"⟩)
                  (estimateBoundingBox (input.faceLandmarks.getD 0 []))
                  cfg.maxHandFaceDistance) = true →
                (classifyFrame cfg st input).status = .FACE_OBSTRUCTED) ∧
              ((input.hands.length > 0 &&
                isHandNearFace (input.hands.getD 0 ⟨[], "Unknown"⟩)
                  (estimateBoundingBox (input.faceLandmarks.getD 0 []))
                  cfg.maxHandFaceDistance) = false →
                (isNeutralExpression (input.faceLandmarks.getD 0 []) = false →
                  (classifyFrame cfg st input).status =
                    .NOT_NEUTRAL_EXPRESSION) ∧
                (isNeutralExpression (input.faceLandmarks.getD 0 []) = true →
                  (hasDarkGlasses input.eyeSample
                      (input.faceLandmarks.getD 0 []) = true →
                    (classifyFrame cfg st input).status = .DARK_GLASSES) ∧
                  (hasDarkGlasses input.eyeSample
                      (input.faceLandmarks.getD 0 []) = false →
                    ∀ b, input.faceBrightness = some b →
                      (b < cfg.minIlluminationThreshold →
                        (classifyFrame cfg st input).status =
                          .POOR_ILLUMINATION) ∧
                      (¬b < cfg.minIlluminationThreshold →
                        (classifyFrame cfg st input).status = .STAY_STILL ∨
                        (classifyFrame cfg st input).status =
                          .CAPTURING))))))))) := by
  refine ⟨fun h0 => ?_, fun hm => ?_, fun h1 => ?_⟩
  · simp only [classifyFrame]
    rw [if_neg (by omega), if_neg (by omega)]

  · simp only [classifyFrame]
    rw [if_pos hm]
  refine ⟨fun hd => ?_, fun hd => ?_, fun hd => ?_⟩
  · simp only [classifyFrame]
    rw [if_neg (by omega), if_pos h1, if_pos (by simp_all),
      if_neg (by simp_all)]
  · simp only [classifyFrame]
    rw [if_neg (by omega), if_pos h1, if_pos (by simp_all),
      if_pos (by simp_all)]
  refine ⟨fun hcen => ?_, fun hcen => ?_⟩
  · simp only [classifyFrame]
    rw [if_neg (by omega), if_pos h1, if_neg (by simp_all), if_pos (by simp_all)]
  refine ⟨fun hg => ?_, fun hg => ?_⟩
  · simp only [classifyFrame]
    rw [if_neg (by omega), if_pos h1, if_neg (by simp_all),
      if_neg (by simp_all), if_pos (by simp_all)]
  refine ⟨fun hh => ?_, fun hh => ?_⟩
  · simp only [classifyFrame]
    rw [if_neg (by omega), if_pos h1, if_neg (by simp_all),
      if_neg (by simp_all), if_neg (by simp_all), if_pos (by simp_all)]
  refine ⟨fun hhd => ?_, fun hhd => ?_⟩
  · simp only [classifyFrame]
    rw [if_neg (by omega), if_pos h1, if_neg (by simp_all),
      if_neg (by simp_all), if_neg (by simp_all), if_neg (by simp_all),
      if_pos (by
        simp only [Bool.and_eq_true, decide_eq_true_eq] at hhd
        obtain ⟨hl, hn2⟩ := hhd
        simp_all)]
  refine ⟨fun hn => ?_, fun hn => ?_⟩
  · simp only [classifyFrame]
    rw [if_neg (by omega), if_pos h1, if_neg (by simp_all),
      if_neg (by simp_all), if_neg (by simp_all), if_neg (by simp_all),
      if_neg (by simp_all), if_pos (by simp_all)]
  refine ⟨fun hdg => ?_, fun hdg => ?_⟩
  · simp only [classifyFrame]
    rw [if_neg (by omega), if_pos h1, if_neg (by simp_all),
      if_neg (by simp_all), if_neg (by simp_all), if_neg (by simp_all),
      if_neg (by simp_all), if_neg (by simp_all), if_pos (by simp_all)]
  intro b hb
  refine ⟨fun hbr => ?_, fun hbr => ?_⟩
  · simp only [classifyFrame, hb]
    rw [if_neg (by omega), if_pos h1, if_neg (by simp_all),
      if_neg (by simp_all), if_neg (by simp_all), if_neg (by simp_all),
      if_neg (by simp_all), if_neg (by simp_all), if_neg (by simp_all),
      if_pos hbr]
  · simp only [classifyFrame, hb]
    rw [if_neg (by omega), if_pos h1, if_neg (by simp_all),
      if_neg (by simp_all), if_neg (by simp_all), if_neg (by simp_all),
      if_neg (by simp_all), if_neg (by simp_all), if_neg (by simp_all),
      if_neg hbr]
    split_ifs <;> simp

/-- Witness for C1: the tiny-face frame is classified TOO_FAR through the
distance conjunct of the precedence theorem. -/
theorem classifyFrame_precedence_witness :
    (classifyFrame testConfig freshState tooFarInput).status = .TOO_FAR :=
  ((classifyFrame_precedence testConfig freshState tooFarInput).2.2
    (by decide)).1 (by decide)

/-- C7 (amended): when a frame passes the face-count, distance, centering,
geometry-plausibility and head-pose checks and the FIRST detected hand has
a landmark within the hand-face distance of the bbox center, the status is
FACE_OBSTRUCTED; hands after the first are not consulted. -/
theorem classifyFrame_firstHand_obstructed (cfg : ValidatorConfig)
    (st : ValidatorState) (input : FrameInput)
    (h1 : input.faceLandmarks.length = 1)
    (hd : checkFaceDistance (estimateBoundingBox (input.faceLandmarks.getD 0 []))
        cfg.minFaceSizeFactor cfg.maxFaceSizeFactor = .OK)
    (hcen : (!isPointInsideOval
        ((input.faceLandmarks.getD 0 []).getD 4 defaultLandmark).x
        ((input.faceLandmarks.getD 0 []).getD 4 defaultLandmark).y
        cfg.videoWidth cfg.videoHeight ||
      !isFaceBoundingBoxInsideOval
        (estimateBoundingBox (input.faceLandmarks.getD 0 []))
        cfg.videoWidth cfg.videoHeight) = false)
    (hg : isFaceGeometryPlausible (input.faceLandmarks.getD 0 [])
        (estimateBoundingBox (input.faceLandmarks.getD 0 [])) = true)
    (hh : isHeadStraight (input.faceLandmarks.getD 0 []) cfg.maxTiltTan = true)
    (hhd : (input.hands.length > 0 &&
        isHandNearFace (input.hands.getD 0 ⟨[], "Unknown"⟩)
          (estimateBoundingBox (input.faceLandmarks.getD 0 []))
          cfg.maxHandFaceDistance) = true) :
    (classifyFrame cfg st input).status = .FACE_OBSTRUCTED := by
  simp only [classifyFrame]
  rw [if_neg (by omega), if_pos h1, if_neg (by simp_all),
    if_neg (by simp_all), if_neg (by simp_all), if_neg (by simp_all),
    if_pos (by
      simp only [Bool.and_eq_true, decide_eq_true_eq] at hhd
      obtain ⟨hl, hn2⟩ := hhd
      simp_all)]

/-- Witness for C7: with the near hand listed first the frame is
FACE_OBSTRUCTED. -/
theorem classifyFrame_firstHand_obstructed_witness :
    (classifyFrame testConfig freshState nearFirstInput).status =
      .FACE_OBSTRUCTED := by
  have hl : nearFirstInput.faceLandmarks.getD 0 [] = goodFace := rfl
  exact classifyFrame_firstHand_obstructed testConfig freshState nearFirstInput
    (by decide)
    (by rw [hl, goodFace_bbox]; decide)
    (by rw [hl, goodFace_bbox]; decide)
    (by rw [hl, goodFace_bbox]; decide)
    (by rw [hl]; decide)
    (by rw [hl, goodFace_bbox]; decide)

/-- Counterexample for C7 as stated: a frame passing every earlier check
whose SECOND hand has a landmark at the face center is not FACE_OBSTRUCTED
(the code consults only the first detected hand). -/
theorem classifyFrame_second_hand_ignored :
    (classifyFrame testConfig freshState twoHandsInput).status = .STAY_STILL ∧
    (classifyFrame testConfig freshState twoHandsInput).status ≠
      .FACE_OBSTRUCTED ∧
    (twoHandsInput.hands.any (fun hand =>
      isHandNearFace hand (estimateBoundingBox goodFace)
        testConfig.maxHandFaceDistance)) = true := by
  have hs := classify_twoHandsInput
  refine ⟨hs, by rw [hs]; decide, by rw [goodFace_bbox]; decide⟩

end FaceValidator
